import Mathlib

/-!
Verification development for the pdf-lib core: the indirect object graph
(PDFContext) and the standard security handler (PDFSecurity).

Byte buffers (TS Uint8Array, CryptoJS WordArray) are modelled as List Nat,
each element a byte value. CryptoJS WordArray values are always observed
through their byte sequence (big-endian bytes per 32-bit word, truncated to
sigBytes); every WordArray operation used by the source (clone, concat,
sigBytes truncation, word-level XOR on word-aligned data) corresponds to the
evident operation on the byte list, so the byte-list model is exact.

External crypto primitives (CryptoJS MD5, RC4, SHA-256, AES) are library
collaborators, not repository code.  MD5 and RC4 are implemented here in
full (the legacy R2-R4 key-derivation claims depend on their concrete
values); SHA-256 and AES are kept as parameters, since the claims about the
paths using them depend only on determinism and output lengths.
-/

namespace PdfLib

set_option maxRecDepth 8000

/-! ## 32-bit helpers -/

/-- Truncate a natural number to 32 bits (JS unsigned 32-bit semantics). -/
def u32 (n : Nat) : Nat := n &&& 0xffffffff

/-- Rotate a 32-bit value left by s bits. -/
def rotl32 (x s : Nat) : Nat := u32 ((x <<< s) ||| (x >>> (32 - s)))

/-- Little-endian byte decomposition of a 32-bit word. -/
def leBytes4 (w : Nat) : List Nat :=
  [w &&& 0xff, (w >>> 8) &&& 0xff, (w >>> 16) &&& 0xff, (w >>> 24) &&& 0xff]

/-- Big-endian byte decomposition of a 32-bit word (CryptoJS WordArray order). -/
def beBytes4 (w : Nat) : List Nat :=
  [(w >>> 24) &&& 0xff, (w >>> 16) &&& 0xff, (w >>> 8) &&& 0xff, w &&& 0xff]

/-- Little-endian byte decomposition of a 64-bit length field. -/
def leBytes8 (n : Nat) : List Nat :=
  leBytes4 (n &&& 0xffffffff) ++ leBytes4 ((n >>> 32) &&& 0xffffffff)

/-! ## MD5 (model of the external CryptoJS.MD5 primitive) -/

/-- MD5 per-round left-rotation amounts. -/
def md5S : List Nat :=
  [7, 12, 17, 22, 7, 12, 17, 22, 7, 12, 17, 22, 7, 12, 17, 22,
   5, 9, 14, 20, 5, 9, 14, 20, 5, 9, 14, 20, 5, 9, 14, 20,
   4, 11, 16, 23, 4, 11, 16, 23, 4, 11, 16, 23, 4, 11, 16, 23,
   6, 10, 15, 21, 6, 10, 15, 21, 6, 10, 15, 21, 6, 10, 15, 21]

/-- MD5 sine-derived round constants. -/
def md5K : List Nat :=
  [0xd76aa478, 0xe8c7b756, 0x242070db, 0xc1bdceee,
   0xf57c0faf, 0x4787c62a, 0xa8304613, 0xfd469501,
   0x698098d8, 0x8b44f7af, 0xffff5bb1, 0x895cd7be,
   0x6b901122, 0xfd987193, 0xa679438e, 0x49b40821,
   0xf61e2562, 0xc040b340, 0x265e5a51, 0xe9b6c7aa,
   0xd62f105d, 0x02441453, 0xd8a1e681, 0xe7d3fbc8,
   0x21e1cde6, 0xc33707d6, 0xf4d50d87, 0x455a14ed,
   0xa9e3e905, 0xfcefa3f8, 0x676f02d9, 0x8d2a4c8a,
   0xfffa3942, 0x8771f681, 0x6d9d6122, 0xfde5380c,
   0xa4beea44, 0x4bdecfa9, 0xf6bb4b60, 0xbebfbc70,
   0x289b7ec6, 0xeaa127fa, 0xd4ef3085, 0x04881d05,
   0xd9d4d039, 0xe6db99e5, 0x1fa27cf8, 0xc4ac5665,
   0xf4292244, 0x432aff97, 0xab9423a7, 0xfc93a039,
   0x655b59c3, 0x8f0ccc92, 0xffeff47d, 0x85845dd1,
   0x6fa87e4f, 0xfe2ce6e0, 0xa3014314, 0x4e0811a1,
   0xf7537e82, 0xbd3af235, 0x2ad7d2bb, 0xeb86d391]

/-- Running MD5 state: the four 32-bit chaining registers. -/
structure MD5State where
  a : Nat
  b : Nat
  c : Nat
  d : Nat

/-- One of the 64 MD5 round steps, applied to message block M at step i. -/
def md5Step (M : List Nat) (st : MD5State) (i : Nat) : MD5State :=
  let b := st.b
  let c := st.c
  let d := st.d
  let f :=
    if i < 16 then (b &&& c) ||| ((0xffffffff ^^^ b) &&& d)
    else if i < 32 then (d &&& b) ||| ((0xffffffff ^^^ d) &&& c)
    else if i < 48 then b ^^^ c ^^^ d
    else c ^^^ (b ||| (0xffffffff ^^^ d))
  let g :=
    if i < 16 then i
    else if i < 32 then (5 * i + 1) % 16
    else if i < 48 then (3 * i + 5) % 16
    else (7 * i) % 16
  let sum := u32 (f + st.a + md5K.getD i 0 + M.getD g 0)
  { a := st.d, b := u32 (st.b + rotl32 sum (md5S.getD i 0)), c := st.b, d := st.c }

/-- Process one 16-word MD5 block, updating the chaining state. -/
def md5Block (st : MD5State) (M : List Nat) : MD5State :=
  let r := (List.range 64).foldl (md5Step M) st
  { a := u32 (st.a + r.a), b := u32 (st.b + r.b),
    c := u32 (st.c + r.c), d := u32 (st.d + r.d) }

/-- Group a byte list into little-endian 32-bit words (length a multiple of 4). -/
def leWords : List Nat → List Nat
  | b0 :: b1 :: b2 :: b3 :: rest =>
      (b0 ||| (b1 <<< 8) ||| (b2 <<< 16) ||| (b3 <<< 24)) :: leWords rest
  | _ => []

/-- MD5 padding: 0x80, zeros to 56 mod 64, then the 64-bit bit length. -/
def md5Pad (msg : List Nat) : List Nat :=
  let len := msg.length
  let zeros := (120 - ((len + 1) % 64)) % 64
  msg ++ [0x80] ++ List.replicate zeros 0 ++ leBytes8 (8 * len)

/-- Split a word list into blocks of 16 words (n = number of blocks). -/
def md5Blocks : Nat → List Nat → List (List Nat)
  | 0, _ => []
  | n + 1, ws => ws.take 16 :: md5Blocks n (ws.drop 16)

/-- Full MD5 over a byte list, producing the 16 digest bytes. -/
def md5Impl (msg : List Nat) : List Nat :=
  let ws := leWords (md5Pad msg)
  let blocks := md5Blocks (ws.length / 16) ws
  let st := blocks.foldl md5Block ⟨0x67452301, 0xefcdab89, 0x98badcfe, 0x10325476⟩
  leBytes4 st.a ++ leBytes4 st.b ++ leBytes4 st.c ++ leBytes4 st.d

/-! ## RC4 (model of the external CryptoJS.RC4 primitive) -/

/-- Swap two positions of a list. -/
def listSwap (S : List Nat) (i j : Nat) : List Nat :=
  (S.set i (S.getD j 0)).set j (S.getD i 0)

/-- RC4 key-scheduling algorithm: build the 256-byte permutation. -/
def rc4Ksa (key : List Nat) : List Nat :=
  let step := fun (st : List Nat × Nat) (i : Nat) =>
    let j := (st.2 + st.1.getD i 0 + key.getD (i % key.length) 0) % 256
    (listSwap st.1 i j, j)
  ((List.range 256).foldl step (List.range 256, 0)).1

/-- RC4 keystream generation and XOR with the message. -/
def rc4Prga (S0 : List Nat) (msg : List Nat) : List Nat :=
  let step := fun (st : List Nat × Nat × Nat × List Nat) (m : Nat) =>
    let S := st.1
    let i := (st.2.1 + 1) % 256
    let j := (st.2.2.1 + S.getD i 0) % 256
    let S2 := listSwap S i j
    let k := S2.getD ((S2.getD i 0 + S2.getD j 0) % 256) 0
    (S2, i, j, st.2.2.2 ++ [m ^^^ k])
  (msg.foldl step (S0, 0, 0, [])).2.2.2

/-- Full RC4 encryption of a message byte list under a key byte list. -/
def rc4Impl (key msg : List Nat) : List Nat := rc4Prga (rc4Ksa key) msg

/-! ## Crypto primitive bundle and random source

The source file accesses CryptoJS primitives ambiently; the embedding passes
them as an explicit parameter bundle.  The cryptographically strong random
source (CryptoJS.lib.WordArray.random) is modelled as an explicit stream of
bytes with a position, threaded through every call of the source's
generateRandomWordArray.
-/

/-- Bundle of the external CryptoJS primitives used by PDFSecurity.
Each AES field takes key, then IV (where applicable), then message bytes and
returns the ciphertext bytes. -/
structure CryptoPrimitives where
  md5 : List Nat → List Nat
  sha256 : List Nat → List Nat
  rc4 : List Nat → List Nat → List Nat
  aesCbcPkcs7 : List Nat → List Nat → List Nat → List Nat
  aesCbcNoPad : List Nat → List Nat → List Nat → List Nat
  aesEcbNoPad : List Nat → List Nat → List Nat

/-- The random byte source: an infinite stream together with the position of
the next unread byte. -/
structure Rng where
  stream : Nat → Nat
  pos : Nat

/-- Draw n random bytes, advancing the position.  This models the source's
generateRandomWordArray(n). -/
def Rng.draw (r : Rng) (n : Nat) : List Nat × Rng :=
  ((List.range n).map (fun i => r.stream (r.pos + i) % 256), ⟨r.stream, r.pos + n⟩)

/-! ## PDFSecurity: permissions, passwords and key derivation -/

/-- The printing field of UserPermissions: absent, a boolean, or one of the
two string values accepted on the revision-3 path. -/
inductive PrintingPermission
  | notGiven
  | flag (b : Bool)
  | lowResolution
  | highResolution
deriving DecidableEq

/-- JS truthiness of the printing field. -/
def PrintingPermission.truthy : PrintingPermission → Bool
  | .notGiven => false
  | .flag b => b
  | .lowResolution => true
  | .highResolution => true

/-- UserPermissions interface; absent boolean fields are modelled as false,
matching JS truthiness of undefined. -/
structure UserPermissions where
  printing : PrintingPermission := .notGiven
  modifying : Bool := false
  copying : Bool := false
  annotating : Bool := false
  fillingForms : Bool := false
  contentAccessibility : Bool := false
  documentAssembly : Bool := false
deriving DecidableEq

/-- SecurityOptions input.  Passwords are modelled as their lists of UTF-16
code-unit values; none stands for an absent (undefined) field. -/
structure SecurityOptions where
  ownerPassword : Option (List Nat) := none
  userPassword : Option (List Nat) := none
  permissions : UserPermissions := {}

/-- JS truthiness of an optional password string: true exactly for a present,
non-empty string. -/
def strTruthy : Option (List Nat) → Bool
  | some (_ :: _) => true
  | _ => false

/-- Errors thrown by the PDFSecurity source. -/
inductive SecurityError
  | configurationError
  | invalidPasswordCharacter
  | unsupportedAlgorithm (v : Nat)
deriving DecidableEq

/-- Permission flags for security handler revision 2, as the unsigned 32-bit
bit pattern of the source's signed result. -/
def getPermissionsR2 (p : UserPermissions) : Nat :=
  let flags := 0xffffffc0
  let flags := if p.printing.truthy then flags ||| 0b000000000100 else flags
  let flags := if p.modifying then flags ||| 0b000000001000 else flags
  let flags := if p.copying then flags ||| 0b000000010000 else flags
  let flags := if p.annotating then flags ||| 0b000000100000 else flags
  flags

/-- Permission flags for security handler revision 3 and above, as the
unsigned 32-bit bit pattern of the source's signed result. -/
def getPermissionsR3 (p : UserPermissions) : Nat :=
  let flags := 0xfffff0c0
  let flags :=
    if p.printing = .lowResolution ∨ p.printing.truthy then flags ||| 0b000000000100 else flags
  let flags :=
    if p.printing = .highResolution then flags ||| 0b100000000100 else flags
  let flags := if p.modifying then flags ||| 0b000000001000 else flags
  let flags := if p.copying then flags ||| 0b000000010000 else flags
  let flags := if p.annotating then flags ||| 0b000000100000 else flags
  let flags := if p.fillingForms then flags ||| 0b000100000000 else flags
  let flags := if p.contentAccessibility then flags ||| 0b001000000000 else flags
  let flags := if p.documentAssembly then flags ||| 0b010000000000 else flags
  flags

/-- Reinterpret an unsigned 32-bit pattern as the signed JS number that the
source stores in the P entry. -/
def asInt32 (n : Nat) : Int :=
  let m := n % 4294967296
  if m < 2147483648 then (m : Int) else (m : Int) - 4294967296

/-- The fixed 32-byte password padding constant (ISO 32000-1 Algorithm 2). -/
def PASSWORD_PADDING : List Nat :=
  [0x28, 0xbf, 0x4e, 0x5e, 0x4e, 0x75, 0x8a, 0x41, 0x64, 0x00, 0x4e, 0x56, 0xff,
   0xfa, 0x01, 0x08, 0x2e, 0x2e, 0x00, 0xb6, 0xd0, 0x68, 0x3e, 0x80, 0x2f, 0x0c,
   0xa9, 0xfe, 0x64, 0x53, 0x69, 0x7a]

/-- The padding/truncation applied by processPasswordR2R3R4 when every checked
character is in range: the first 32 codes, filled to 32 bytes from
PASSWORD_PADDING (indexed by position minus password length). -/
def padPassword (password : List Nat) : List Nat :=
  password.take 32 ++ (List.range (32 - password.length)).map (fun k => PASSWORD_PADDING.getD k 0)

/-- processPasswordR2R3R4: checks each of the first 32 character codes for the
single-byte range, throwing on the first violation, then pads to 32 bytes.
Characters at index 32 and beyond are never read. -/
def processPasswordR2R3R4 (password : List Nat) : Except SecurityError (List Nat) :=
  if (password.take 32).any (fun c => decide (0xff < c)) then
    .error .invalidPasswordCharacter
  else
    .ok (padPassword password)

/-- processPasswordR5: truncate to at most 127 code units; each is stored into
a Uint8Array, hence reduced mod 256, with no range check. -/
def processPasswordR5 (password : List Nat) : List Nat :=
  (password.take 127).map (· % 256)

/-- lsbFirstWord: byte-reverse a 32-bit value (the source applies this to the
signed permission integer; the result is the same function of the unsigned
bit pattern). -/
def lsbFirstWord (data : Nat) : Nat :=
  u32 (((data &&& 0xff) <<< 24) ||| ((data &&& 0xff00) <<< 8) |||
       ((data >>> 8) &&& 0xff00) ||| ((data >>> 24) &&& 0xff))

/-- getOwnerPasswordR2R3R4: iterated-MD5 digest of the padded owner password,
truncated to the key length; then 1 or 20 RC4 rounds over the padded user
password, each round XORing every key byte with the round index. -/
def getOwnerPasswordR2R3R4 (C : CryptoPrimitives) (r keyBits : Nat)
    (paddedUserPassword paddedOwnerPassword : List Nat) : List Nat :=
  let digest := (List.range (if 3 ≤ r then 51 else 1)).foldl
    (fun d _ => C.md5 d) paddedOwnerPassword
  let keyBase := digest.take (keyBits / 8)
  (List.range (if 3 ≤ r then 20 else 1)).foldl
    (fun cipher i => C.rc4 (keyBase.map (fun b => b ^^^ i)) cipher) paddedUserPassword

/-- getEncryptionKeyR2R3R4: MD5 over padded user password, owner entry,
little-endian permission bytes and the file identifier, truncated to the key
length after each of 1 or 51 rounds. -/
def getEncryptionKeyR2R3R4 (C : CryptoPrimitives) (r keyBits : Nat)
    (documentId paddedUserPassword ownerPasswordEntry : List Nat)
    (permissions : Nat) : List Nat :=
  let key0 := paddedUserPassword ++ ownerPasswordEntry ++
    beBytes4 (lsbFirstWord permissions) ++ documentId
  (List.range (if 3 ≤ r then 51 else 1)).foldl
    (fun key _ => (C.md5 key).take (keyBits / 8)) key0

/-- getUserPasswordR2: RC4 of the padded empty password (the padding constant
itself, since processPasswordR2R3R4 of the empty string cannot fail) under the
encryption key. -/
def getUserPasswordR2 (C : CryptoPrimitives) (encryptionKey : List Nat) : List Nat :=
  C.rc4 encryptionKey (padPassword [])

/-- getUserPasswordR3R4: MD5 of the padded empty password and the file
identifier, then 20 RC4 rounds with the per-round XOR-by-index key transform,
then 16 zero bytes appended (the source concatenates a WordArray with empty
words and sigBytes 16, whose bytes all read as 0). -/
def getUserPasswordR3R4 (C : CryptoPrimitives) (documentId encryptionKey : List Nat) : List Nat :=
  let cipher0 := C.md5 (padPassword [] ++ documentId)
  let cipher := (List.range 20).foldl
    (fun cipher i => C.rc4 (encryptionKey.map (fun b => b ^^^ i)) cipher) cipher0
  cipher ++ List.replicate 16 0

/-- getUserPasswordR5: SHA-256 of the processed password and a fresh 8-byte
validation salt, followed by the validation salt and a fresh 8-byte key salt. -/
def getUserPasswordR5 (C : CryptoPrimitives) (processedUserPassword : List Nat)
    (rng : Rng) : List Nat × Rng :=
  let (validationSalt, rng) := rng.draw 8
  let (keySalt, rng) := rng.draw 8
  (C.sha256 (processedUserPassword ++ validationSalt) ++ validationSalt ++ keySalt, rng)

/-- getUserEncryptionKeyR5: AES-256-CBC (no padding, zero IV) of the file
encryption key under SHA-256 of the processed password and the user key salt. -/
def getUserEncryptionKeyR5 (C : CryptoPrimitives)
    (processedUserPassword userKeySalt encryptionKey : List Nat) : List Nat :=
  C.aesCbcNoPad (C.sha256 (processedUserPassword ++ userKeySalt))
    (List.replicate 16 0) encryptionKey

/-- getOwnerPasswordR5: like the user entry, but the hash also covers the full
48-byte user password entry. -/
def getOwnerPasswordR5 (C : CryptoPrimitives)
    (processedOwnerPassword userPasswordEntry : List Nat) (rng : Rng) : List Nat × Rng :=
  let (validationSalt, rng) := rng.draw 8
  let (keySalt, rng) := rng.draw 8
  (C.sha256 (processedOwnerPassword ++ validationSalt ++ userPasswordEntry) ++
    validationSalt ++ keySalt, rng)

/-- getOwnerEncryptionKeyR5: AES-256-CBC (no padding, zero IV) of the file
encryption key under SHA-256 of the processed owner password, the owner key
salt and the user password entry. -/
def getOwnerEncryptionKeyR5 (C : CryptoPrimitives)
    (processedOwnerPassword ownerKeySalt userPasswordEntry encryptionKey : List Nat) : List Nat :=
  C.aesCbcNoPad (C.sha256 (processedOwnerPassword ++ ownerKeySalt ++ userPasswordEntry))
    (List.replicate 16 0) encryptionKey

/-- getEncryptionKeyR5: 32 fresh random bytes. -/
def getEncryptionKeyR5 (rng : Rng) : List Nat × Rng := rng.draw 32

/-- getEncryptedPermissionsR5: the 12 bytes of little-endian permissions,
0xffffffff and the marker word, plus 4 random bytes, encrypted with
AES-256-ECB (no padding) under the file encryption key. -/
def getEncryptedPermissionsR5 (C : CryptoPrimitives) (permissions : Nat)
    (encryptionKey : List Nat) (rng : Rng) : List Nat × Rng :=
  let (r4, rng) := rng.draw 4
  (C.aesEcbNoPad encryptionKey
    (beBytes4 (lsbFirstWord permissions) ++ beBytes4 0xffffffff ++
     beBytes4 0x54616462 ++ r4), rng)

/-- generateFileID: MD5 of the decimal string of the current time in
milliseconds (Date.now()), as its ASCII byte codes. -/
def generateFileID (C : CryptoPrimitives) (now : Nat) : List Nat :=
  C.md5 ((toString now).data.map Char.toNat)

/-! ## PDFSecurity: the encryption dictionary and handler state -/

/-- The CF.StdCF crypt filter entry. -/
structure StdCF where
  AuthEvent : String
  CFM : String
  Length : Nat
deriving DecidableEq

/-- The Encryption record built by the initialize functions (the /Encrypt
dictionary contents).  Optional TS fields are Options. -/
structure Encryption where
  V : Nat
  R : Nat
  O : List Nat
  U : List Nat
  P : Int
  Filter : String
  Length : Option Nat
  CF : Option StdCF
  StmF : Option String
  StrF : Option String
  OE : Option (List Nat)
  UE : Option (List Nat)
  Perms : Option (List Nat)
deriving DecidableEq

/-- The fields a successfully constructed PDFSecurity instance holds. -/
structure PDFSecurityState where
  id : List Nat
  keyBits : Nat
  encryptionKey : List Nat
  encryption : Encryption
deriving DecidableEq

/-- initializeV1V2V4: the legacy (R2-R4) construction.  The only sources of
failure are the defensive unsupported-algorithm branch and password
character-range checks; no randomness is consumed. -/
def PDFSecurity.initializeV1V2V4 (C : CryptoPrimitives) (v : Nat) (id : List Nat)
    (options : SecurityOptions) : Except SecurityError PDFSecurityState :=
  match (match v with
         | 1 => .ok (2, 40, getPermissionsR2 options.permissions)
         | 2 => .ok (3, 128, getPermissionsR3 options.permissions)
         | 4 => .ok (4, 128, getPermissionsR3 options.permissions)
         | _ => .error (.unsupportedAlgorithm v) :
         Except SecurityError (Nat × Nat × Nat)) with
  | .error e => .error e
  | .ok (r, keyBits, permissions) =>
  match processPasswordR2R3R4 (options.userPassword.getD []) with
  | .error e => .error e
  | .ok paddedUserPassword =>
  match (if strTruthy options.ownerPassword then
           processPasswordR2R3R4 (options.ownerPassword.getD [])
         else
           .ok paddedUserPassword) with
  | .error e => .error e
  | .ok paddedOwnerPassword =>
  let ownerPasswordEntry :=
    getOwnerPasswordR2R3R4 C r keyBits paddedUserPassword paddedOwnerPassword
  let encryptionKey :=
    getEncryptionKeyR2R3R4 C r keyBits id paddedUserPassword ownerPasswordEntry permissions
  let userPasswordEntry :=
    if r = 2 then getUserPasswordR2 C encryptionKey
    else getUserPasswordR3R4 C id encryptionKey
  .ok {
    id := id
    keyBits := keyBits
    encryptionKey := encryptionKey
    encryption := {
      V := v
      R := r
      O := ownerPasswordEntry
      U := userPasswordEntry
      P := asInt32 permissions
      Filter := "Standard"
      Length := if 2 ≤ v then some keyBits else none
      CF := if v = 4 then some ⟨"DocOpen", "AESV2", keyBits / 8⟩ else none
      StmF := if v = 4 then some "StdCF" else none
      StrF := if v = 4 then some "StdCF" else none
      OE := none
      UE := none
      Perms := none } }

/-- initializeV5: the AES-256 (R5) construction, consuming random bytes for
the file key, the four salts and the Perms block in source order. -/
def PDFSecurity.initializeV5 (C : CryptoPrimitives) (id : List Nat)
    (options : SecurityOptions) (rng : Rng) : PDFSecurityState × Rng :=
  let (encryptionKey, rng) := getEncryptionKeyR5 rng
  let processedUserPassword := processPasswordR5 (options.userPassword.getD [])
  let (userPasswordEntry, rng) := getUserPasswordR5 C processedUserPassword rng
  let userKeySalt := (userPasswordEntry.drop 40).take 8
  let userEncryptionKeyEntry :=
    getUserEncryptionKeyR5 C processedUserPassword userKeySalt encryptionKey
  let processedOwnerPassword :=
    if strTruthy options.ownerPassword then processPasswordR5 (options.ownerPassword.getD [])
    else processedUserPassword
  let (ownerPasswordEntry, rng) :=
    getOwnerPasswordR5 C processedOwnerPassword userPasswordEntry rng
  let ownerKeySalt := (ownerPasswordEntry.drop 40).take 8
  let ownerEncryptionKeyEntry :=
    getOwnerEncryptionKeyR5 C processedOwnerPassword ownerKeySalt userPasswordEntry encryptionKey
  let permissions := getPermissionsR3 options.permissions
  let (permissionsEntry, rng) :=
    getEncryptedPermissionsR5 C permissions encryptionKey rng
  ({ id := id
     keyBits := 256
     encryptionKey := encryptionKey
     encryption := {
       V := 5
       R := 5
       O := ownerPasswordEntry
       U := userPasswordEntry
       P := asInt32 permissions
       Filter := "Standard"
       Length := some 256
       CF := some ⟨"DocOpen", "AESV3", 32⟩
       StmF := some "StdCF"
       StrF := some "StdCF"
       OE := some ownerEncryptionKeyEntry
       UE := some userEncryptionKeyEntry
       Perms := some permissionsEntry } }, rng)

/-- The algorithm version selected from the document's declared format
version string. -/
def versionToAlgorithm : String → Nat
  | "1.4" => 2
  | "1.5" => 2
  | "1.6" => 4
  | "1.7" => 4
  | "1.7ext3" => 5
  | _ => 1

/-- The source's initialize method (named initializeHandler here): generate
the file ID from the current time, select the algorithm version from the
format version string and dispatch. -/
def PDFSecurity.initializeHandler (C : CryptoPrimitives) (versionString : String) (now : Nat)
    (options : SecurityOptions) (rng : Rng) :
    Except SecurityError (PDFSecurityState × Rng) :=
  let id := generateFileID C now
  match versionToAlgorithm versionString with
  | 5 => .ok (PDFSecurity.initializeV5 C id options rng)
  | v => (PDFSecurity.initializeV1V2V4 C v id options).map (fun s => (s, rng))

/-- The PDFSecurity constructor: rejects the configuration when neither
password is truthy, and otherwise performs the complete initialization before
returning. -/
def PDFSecurity.construct (C : CryptoPrimitives) (versionString : String) (now : Nat)
    (options : SecurityOptions) (rng : Rng) :
    Except SecurityError (PDFSecurityState × Rng) :=
  if !strTruthy options.ownerPassword && !strTruthy options.userPassword then
    .error .configurationError
  else
    PDFSecurity.initializeHandler C versionString now options rng

/-- getEncryptFn: derive the per-object key and return the byte-buffer
encryption closure.  On the AES paths the 16-byte IV is drawn once, here, and
the returned closure references it on every invocation.  The source's v = 3
case (unreachable for constructed handlers, whose V is one of 1, 2, 4, 5)
and its v > 5 throw are both mapped to the unsupported-algorithm error. -/
def PDFSecurity.getEncryptFn (C : CryptoPrimitives) (s : PDFSecurityState)
    (obj gen : Nat) (rng : Rng) :
    Except SecurityError ((List Nat → List Nat) × Rng) :=
  let v := s.encryption.V
  let w1 := u32 (((obj &&& 0xff) <<< 24) ||| ((obj &&& 0xff00) <<< 8) |||
                 ((obj >>> 8) &&& 0xff00) ||| (gen &&& 0xff))
  let w2 := u32 ((gen &&& 0xff00) <<< 16)
  let digest := s.encryptionKey ++ (beBytes4 w1 ++ beBytes4 w2).take 5
  if v = 1 ∨ v = 2 then
    let key := (C.md5 digest).take (min 16 (s.keyBits / 8 + 5))
    .ok ((fun buffer => C.rc4 key buffer), rng)
  else if v = 4 ∨ v = 5 then
    let key :=
      if v = 4 then C.md5 (digest ++ beBytes4 0x73416c54)
      else s.encryptionKey
    let ivr := rng.draw 16
    .ok ((fun buffer => ivr.1 ++ C.aesCbcPkcs7 key ivr.1 buffer), ivr.2)
  else
    .error (.unsupportedAlgorithm v)

/-- The AES key that the closure returned by getEncryptFn encrypts under, for
the AES paths (V = 4 derives a per-object MD5 key; V = 5 uses the file key). -/
def PDFSecurity.encryptFnAesKey (C : CryptoPrimitives) (s : PDFSecurityState)
    (obj gen : Nat) : List Nat :=
  let w1 := u32 (((obj &&& 0xff) <<< 24) ||| ((obj &&& 0xff00) <<< 8) |||
                 ((obj >>> 8) &&& 0xff00) ||| (gen &&& 0xff))
  let w2 := u32 ((gen &&& 0xff00) <<< 16)
  let digest := s.encryptionKey ++ (beBytes4 w1 ++ beBytes4 w2).take 5
  if s.encryption.V = 4 then C.md5 (digest ++ beBytes4 0x73416c54)
  else s.encryptionKey

/-! ## Concrete instantiations used by closed witnesses and counterexamples -/

/-- Deterministic stand-in for the external MD5 primitive, used where a
closed theorem evaluates a long iterated derivation inside the kernel (the
genuine md5Impl is too deep for kernel reduction when iterated 51 times);
only determinism, the 16-byte output length and input sensitivity are relied
upon. -/
def md5Model (msg : List Nat) : List Nat :=
  let h := msg.foldl (fun a b => (a * 257 + b + 13) % 65521) 17
  (List.range 16).map (fun i => (h + 31 * i) % 256)

/-- Deterministic stand-in for the external RC4 primitive; only determinism,
length preservation and key sensitivity are relied upon. -/
def rc4Model (key msg : List Nat) : List Nat :=
  let k := key.foldl (fun a b => (a * 131 + b + 7) % 251) 3
  msg.map (fun b => b ^^^ (k % 256))

/-- Deterministic stand-in for the external SHA-256 primitive; only
determinism and the fixed 32-byte output length are relied upon. -/
def sha256Model (msg : List Nat) : List Nat :=
  let h := msg.foldl (fun a b => (a * 131 + b + 1) % 251) 7
  (List.range 32).map (fun i => (h + 53 * i) % 256)

/-- Deterministic stand-in for the external AES-CBC primitive; only
determinism and length preservation are relied upon. -/
def aesCbcModel (key iv msg : List Nat) : List Nat :=
  let k := key.foldl (fun a b => (a + b * 3 + 1) % 256) 5
  let v := iv.foldl (fun a b => (a + b * 7 + 1) % 256) 11
  msg.map (fun b => (b + k + v) % 256)

/-- Deterministic stand-in for the external AES-ECB primitive; only
determinism and length preservation are relied upon. -/
def aesEcbModel (key msg : List Nat) : List Nat :=
  let k := key.foldl (fun a b => (a + b * 3 + 1) % 256) 5
  msg.map (fun b => (b + k) % 256)

/-- Concrete primitive bundle with the genuine MD5 and RC4 algorithms and
model SHA-256/AES, usable in closed theorems whose evaluations stay shallow
(at most a few MD5 applications). -/
def cryptoReal : CryptoPrimitives :=
  { md5 := md5Impl
    sha256 := sha256Model
    rc4 := rc4Impl
    aesCbcPkcs7 := aesCbcModel
    aesCbcNoPad := aesCbcModel
    aesEcbNoPad := aesEcbModel }

/-- Concrete primitive bundle of shallow deterministic stand-ins, usable in
closed theorems that evaluate the deep iterated legacy derivation. -/
def cryptoModel : CryptoPrimitives :=
  { md5 := md5Model
    sha256 := sha256Model
    rc4 := rc4Model
    aesCbcPkcs7 := aesCbcModel
    aesCbcNoPad := aesCbcModel
    aesEcbNoPad := aesEcbModel }

/-- A concrete random stream (the byte at position i is i mod 256). -/
def natRng : Rng := ⟨fun i => i, 0⟩

/-! ## PDFContext: the indirect object graph

The typed object classes (PDFName, PDFNumber, PDFDict, PDFContentStream, ...)
are repository files not among the provided sources; they are modelled from
the spec as one tagged variant.  PDFContext itself (assign, nextRef, register,
enumerateIndirectObjects, obj, getLiteral, the memoized bracket streams) is
translated from the provided source.
-/

/-- Modelled from the spec: a Reference is an (objectNumber, generation)
pair with value identity (PDFRef instances are pooled by the repository, so
JS identity coincides with value equality). -/
structure PDFRef where
  objectNumber : Nat
  generationNumber : Nat
deriving DecidableEq

/-- PDFRef.of with the default generation number 0. -/
def PDFRef.of (objectNumber : Nat) : PDFRef := ⟨objectNumber, 0⟩

/-- Modelled from the spec: the Object variants {Null, Bool, Number, Name,
String, HexString, Array, Dict, Stream, Ref}.  Name carries its decoded text;
Number carries its numeric value; Dict carries its (unique-keyed) entries in
insertion order; a content stream carries its dictionary entries and its
operator names. -/
inductive PDFObject
  | null
  | bool (b : Bool)
  | number (n : Int)
  | name (s : String)
  | string (s : String)
  | hexString (bytes : List Nat)
  | ref (objectNumber generationNumber : Nat)
  | array (elems : List PDFObject)
  | dict (entries : List (String × PDFObject))
  | stream (dict : List (String × PDFObject)) (ops : List String)

/-- A native literal passed to obj(): null, string, number, boolean, byte
array, ordered list or keyed map.  A JS object literal cannot carry duplicate
keys, so the entries of lmap are read as the key-ordered entries of such an
object. -/
inductive Lit
  | lnull
  | lstr (s : String)
  | lnum (n : Int)
  | lbool (b : Bool)
  | lbytes (bytes : List Nat)
  | larr (elems : List Lit)
  | lmap (entries : List (String × Lit))

/-- The TS type Literal | PDFObject produced by getLiteral: a native literal
tree whose leaves may also be typed objects. -/
inductive GLit
  | null
  | str (s : String)
  | num (n : Int)
  | bool (b : Bool)
  | bytes (bs : List Nat)
  | arr (elems : List GLit)
  | map (entries : List (String × GLit))
  | obj (o : PDFObject)

mutual

/-- The injection of a native literal into the getLiteral result type: the
statement that getLiteral returns the original literal exactly.  (The list
and entry cases are split into mutual helpers for structural recursion over
the nested lists.) -/
def Lit.toGLit : Lit → GLit
  | .lnull => .null
  | .lstr s => .str s
  | .lnum n => .num n
  | .lbool b => .bool b
  | .lbytes bs => .bytes bs
  | .larr xs => .arr (Lit.toGLitList xs)
  | .lmap kvs => .map (Lit.toGLitEntries kvs)

def Lit.toGLitList : List Lit → List GLit
  | [] => []
  | x :: xs => Lit.toGLit x :: Lit.toGLitList xs

def Lit.toGLitEntries : List (String × Lit) → List (String × GLit)
  | [] => []
  | (k, v) :: rest => (k, Lit.toGLit v) :: Lit.toGLitEntries rest

end

/-- The getLiteral configuration flags with their source defaults. -/
structure LiteralConfig where
  deep : Bool := true
  literalRef : Bool := false
  literalStreamDict : Bool := false
  literalString : Bool := false
deriving DecidableEq

/-- The default configuration: deep, with no literal-breaking flag set. -/
def cfg0 : LiteralConfig := {}

/-- Modelled from the spec: PDFHexString.asString / PDFString.asString used
when the literalString flag converts a String or HexString to a native
string (the class files are not among the provided sources); bytes are read
back as character codes. -/
def hexStringAsString (bytes : List Nat) : String :=
  String.mk (bytes.map (fun b => Char.ofNat b))

mutual

/-- obj(): convert a native literal to a typed object.  Null maps to PDFNull,
strings to PDFName.of, numbers to PDFNumber.of, booleans to PDFBool,
Uint8Array to PDFHexString.fromBytes, arrays elementwise, and any other
object to a PDFDict built from its keys in order.  (The source also passes
existing PDFObject values through and skips undefined map entries; native
literals contain neither.) -/
def PDFContext.obj : Lit → PDFObject
  | .lnull => .null
  | .lstr s => .name s
  | .lnum n => .number n
  | .lbool b => .bool b
  | .lbytes bs => .hexString bs
  | .larr xs => .array (PDFContext.objList xs)
  | .lmap kvs => .dict (PDFContext.objEntries kvs)

def PDFContext.objList : List Lit → List PDFObject
  | [] => []
  | x :: xs => PDFContext.obj x :: PDFContext.objList xs

def PDFContext.objEntries : List (String × Lit) → List (String × PDFObject)
  | [] => []
  | (k, v) :: rest => (k, PDFContext.obj v) :: PDFContext.objEntries rest

end

mutual

/-- getLiteral(): the inverse conversion, with the four configuration flags.
The source's per-entry test of the constant deep flag inside the dict loop is
hoisted outside the loop; the PDFStream branch with literalStreamDict set
recurses into the stream's dictionary, written out here as the dict logic
applied to the stream's dictionary entries. -/
def PDFContext.getLiteral (cfg : LiteralConfig) : PDFObject → GLit
  | .array xs =>
      if cfg.deep then .arr (PDFContext.getLiteralList cfg xs)
      else .arr (xs.map GLit.obj)
  | .bool b => .bool b
  | .dict entries =>
      if cfg.deep then .map (PDFContext.getLiteralEntries cfg entries)
      else .map (entries.map (fun kv => (kv.1, GLit.obj kv.2)))
  | .name s => .str s
  | .null => .null
  | .number n => .num n
  | .ref objectNumber generationNumber =>
      if cfg.literalRef then .num objectNumber
      else .obj (.ref objectNumber generationNumber)
  | .stream dict ops =>
      if cfg.literalStreamDict then
        if cfg.deep then .map (PDFContext.getLiteralEntries cfg dict)
        else .map (dict.map (fun kv => (kv.1, GLit.obj kv.2)))
      else .obj (.stream dict ops)
  | .string s => if cfg.literalString then .str s else .obj (.string s)
  | .hexString bs =>
      if cfg.literalString then .str (hexStringAsString bs) else .obj (.hexString bs)

def PDFContext.getLiteralList (cfg : LiteralConfig) : List PDFObject → List GLit
  | [] => []
  | x :: xs => PDFContext.getLiteral cfg x :: PDFContext.getLiteralList cfg xs

def PDFContext.getLiteralEntries (cfg : LiteralConfig) :
    List (String × PDFObject) → List (String × GLit)
  | [] => []
  | (k, v) :: rest => (k, PDFContext.getLiteral cfg v) :: PDFContext.getLiteralEntries cfg rest

end

/-- The object graph state: the largest assigned object number, the declared
header version, the reference-to-object map in insertion order, and the two
memoized bracket content stream references. -/
structure PDFContextState where
  largestObjectNumber : Nat
  headerVersion : String
  indirectObjects : List (PDFRef × PDFObject)
  pushGraphicsStateContentStreamRef : Option PDFRef
  popGraphicsStateContentStreamRef : Option PDFRef

/-- PDFContext.create(): empty graph, header version 1.7, nothing memoized. -/
def PDFContext.create : PDFContextState :=
  { largestObjectNumber := 0
    headerVersion := "1.7"
    indirectObjects := []
    pushGraphicsStateContentStreamRef := none
    popGraphicsStateContentStreamRef := none }

/-- JS Map.set: replace the value in place when the key is present, append
otherwise. -/
def mapSet : List (PDFRef × PDFObject) → PDFRef → PDFObject → List (PDFRef × PDFObject)
  | [], k, v => [(k, v)]
  | (k0, v0) :: rest, k, v =>
      if k0 = k then (k, v) :: rest else (k0, v0) :: mapSet rest k v

/-- assign(ref, object): store the mapping and raise largestObjectNumber if
this reference's object number exceeds it. -/
def PDFContext.assign (c : PDFContextState) (ref : PDFRef) (object : PDFObject) :
    PDFContextState :=
  { c with
    indirectObjects := mapSet c.indirectObjects ref object
    largestObjectNumber :=
      if c.largestObjectNumber < ref.objectNumber then ref.objectNumber
      else c.largestObjectNumber }

/-- nextRef(): increment largestObjectNumber and return a fresh reference
with generation 0. -/
def PDFContext.nextRef (c : PDFContextState) : PDFRef × PDFContextState :=
  (PDFRef.of (c.largestObjectNumber + 1),
   { c with largestObjectNumber := c.largestObjectNumber + 1 })

/-- register(object): nextRef followed by assign. -/
def PDFContext.register (c : PDFContextState) (object : PDFObject) :
    PDFRef × PDFContextState :=
  let rc := PDFContext.nextRef c
  (rc.1, PDFContext.assign rc.2 rc.1 object)

/-- The sort order of byAscendingObjectNumber (the source's numeric
comparator sorts ascending by object number). -/
def byAscendingObjectNumber (a b : PDFRef × PDFObject) : Prop :=
  a.1.objectNumber ≤ b.1.objectNumber

instance : DecidableRel byAscendingObjectNumber := fun a b =>
  inferInstanceAs (Decidable (a.1.objectNumber ≤ b.1.objectNumber))

instance : IsTotal (PDFRef × PDFObject) byAscendingObjectNumber :=
  ⟨fun a b => Nat.le_total a.1.objectNumber b.1.objectNumber⟩

instance : IsTrans (PDFRef × PDFObject) byAscendingObjectNumber :=
  ⟨fun _ _ _ hab hbc => Nat.le_trans hab hbc⟩

/-- enumerateIndirectObjects(): the map entries sorted with the ascending
comparator.  Array.prototype.sort with a consistent numeric comparator is the
stable sorted permutation of its input, which insertion sort computes. -/
def PDFContext.enumerateIndirectObjects (c : PDFContextState) :
    List (PDFRef × PDFObject) :=
  List.insertionSort byAscendingObjectNumber c.indirectObjects

/-- getPushGraphicsStateContentStream(): return the memoized reference when
present; otherwise register a content stream holding the single operator q
over an empty dictionary and memoize its reference. -/
def PDFContext.getPushGraphicsStateContentStream (c : PDFContextState) :
    PDFRef × PDFContextState :=
  match c.pushGraphicsStateContentStreamRef with
  | some ref => (ref, c)
  | none =>
      let stream := PDFObject.stream [] ["q"]
      let rc := PDFContext.register c stream
      (rc.1, { rc.2 with pushGraphicsStateContentStreamRef := some rc.1 })

/-- getPopGraphicsStateContentStream(): the same memoization for the single
operator Q. -/
def PDFContext.getPopGraphicsStateContentStream (c : PDFContextState) :
    PDFRef × PDFContextState :=
  match c.popGraphicsStateContentStreamRef with
  | some ref => (ref, c)
  | none =>
      let stream := PDFObject.stream [] ["Q"]
      let rc := PDFContext.register c stream
      (rc.1, { rc.2 with popGraphicsStateContentStreamRef := some rc.1 })

/-- One mutation step of the graph considered by the monotonicity claim:
an assign with an arbitrary reference, or a register. -/
inductive CtxOp
  | assignOp (ref : PDFRef) (object : PDFObject)
  | registerOp (object : PDFObject)

/-- Apply one operation, also reporting the object number it assigned. -/
def CtxOp.apply (c : PDFContextState) : CtxOp → PDFContextState × Nat
  | .assignOp ref object => (PDFContext.assign c ref object, ref.objectNumber)
  | .registerOp object =>
      let rc := PDFContext.register c object
      (rc.2, rc.1.objectNumber)

/-- Run a sequence of operations, collecting every assigned object number. -/
def runOps (c : PDFContextState) : List CtxOp → PDFContextState × List Nat
  | [] => (c, [])
  | op :: rest =>
      let r := op.apply c
      let rr := runOps r.1 rest
      (rr.1, r.2 :: rr.2)

/-! ## Auxiliary definitions used by the theorems below -/

instance {ε α : Type} [DecidableEq ε] [DecidableEq α] : DecidableEq (Except ε α) := fun
  | .ok a, .ok b =>
      if h : a = b then .isTrue (by rw [h]) else .isFalse (by intro hh; cases hh; exact h rfl)
  | .error a, .error b =>
      if h : a = b then .isTrue (by rw [h]) else .isFalse (by intro hh; cases hh; exact h rfl)
  | .ok _, .error _ => .isFalse (by intro hh; cases hh)
  | .error _, .ok _ => .isFalse (by intro hh; cases hh)

/-- Does this outcome carry precisely the Configuration error thrown by the
constructor guard? -/
def isConfigError {α : Type} : Except SecurityError α → Bool
  | .error .configurationError => true
  | _ => false

/-- Key uniqueness of an entry list (a JS object literal cannot carry a
duplicate key). -/
def keysNodup : List String → Bool
  | [] => true
  | k :: ks => !(ks.contains k) && keysNodup ks

mutual

/-- Well-formedness of a native literal for the round-trip property: no
byte-array leaves (a byte array converts to a PDFHexString object and does
not come back as a byte array), and unique keys in every map, as holds for
any value built from a JS object literal. -/
def Lit.wf : Lit → Bool
  | .lnull => true
  | .lstr _ => true
  | .lnum _ => true
  | .lbool _ => true
  | .lbytes _ => false
  | .larr xs => Lit.wfList xs
  | .lmap kvs => keysNodup (kvs.map Prod.fst) && Lit.wfEntries kvs

def Lit.wfList : List Lit → Bool
  | [] => true
  | x :: xs => Lit.wf x && Lit.wfList xs

def Lit.wfEntries : List (String × Lit) → Bool
  | [] => true
  | kv :: rest => Lit.wf kv.2 && Lit.wfEntries rest

end

/-- A concrete handler state on the V = 5 path, used to instantiate the
closure theorem at a concrete input. -/
def c1StateV5 : PDFSecurityState :=
  { id := List.replicate 16 0
    keyBits := 256
    encryptionKey := List.replicate 32 1
    encryption :=
      { V := 5, R := 5, O := [], U := [], P := 0, Filter := "Standard"
        Length := some 256, CF := some ⟨"DocOpen", "AESV3", 32⟩
        StmF := some "StdCF", StrF := some "StdCF"
        OE := none, UE := none, Perms := none } }

/-- The SecurityOptions input (userPassword "foo") at which the legacy-path
reproducibility claim is refuted. -/
def c2opts : SecurityOptions := { userPassword := some [102, 111, 111] }

/-- The padded user password for "foo". -/
def c2pw : List Nat :=
  [102, 111, 111, 40, 191, 78, 94, 78, 117, 138, 65, 100, 0, 78, 86, 255, 250,
   1, 8, 46, 46, 0, 182, 208, 104, 62, 128, 47, 12, 169, 254, 100]

/-- The file identifier derived (under the model MD5) at time 0. -/
def c2id0 : List Nat :=
  [78, 109, 140, 171, 202, 233, 8, 39, 70, 101, 132, 163, 194, 225, 0, 31]

/-- The file identifier derived (under the model MD5) at time 1. -/
def c2id1 : List Nat :=
  [79, 110, 141, 172, 203, 234, 9, 40, 71, 102, 133, 164, 195, 226, 1, 32]

/-- Stage values of the 51-round owner-password digest chain (17 rounds
each), and its final value. -/
def c2dA : List Nat :=
  [138, 169, 200, 231, 6, 37, 68, 99, 130, 161, 192, 223, 254, 29, 60, 91]

def c2dB : List Nat :=
  [228, 3, 34, 65, 96, 127, 158, 189, 220, 251, 26, 57, 88, 119, 150, 181]

def c2dC : List Nat :=
  [233, 8, 39, 70, 101, 132, 163, 194, 225, 0, 31, 62, 93, 124, 155, 186]

/-- The owner password entry (identical for both construction times). -/
def c2oEnt : List Nat :=
  [108, 101, 101, 34, 181, 68, 84, 68, 127, 128, 75, 110, 10, 68, 92, 245,
   240, 11, 2, 36, 36, 10, 188, 218, 98, 52, 138, 37, 6, 163, 244, 110]

/-- Stage values of the 51-round encryption-key chain at time 0. -/
def c2k0A : List Nat :=
  [63, 94, 125, 156, 187, 218, 249, 24, 55, 86, 117, 148, 179, 210, 241, 16]

def c2k0B : List Nat :=
  [89, 120, 151, 182, 213, 244, 19, 50, 81, 112, 143, 174, 205, 236, 11, 42]

/-- The encryption key at time 0. -/
def c2key0 : List Nat :=
  [223, 254, 29, 60, 91, 122, 153, 184, 215, 246, 21, 52, 83, 114, 145, 176]

/-- Stage values of the 51-round encryption-key chain at time 1. -/
def c2k1A : List Nat :=
  [19, 50, 81, 112, 143, 174, 205, 236, 11, 42, 73, 104, 135, 166, 197, 228]

def c2k1B : List Nat :=
  [72, 103, 134, 165, 196, 227, 2, 33, 64, 95, 126, 157, 188, 219, 250, 25]

/-- The encryption key at time 1. -/
def c2key1 : List Nat :=
  [40, 71, 102, 133, 164, 195, 226, 1, 32, 63, 94, 125, 156, 187, 218, 249]

/-- The user password entry at time 0. -/
def c2U0 : List Nat :=
  [129, 174, 207, 236, 13, 42, 75, 104, 137, 182, 215, 244, 21, 50, 83, 112,
   0, 0, 0, 0, 0, 0, 0, 0, 0, 0, 0, 0, 0, 0, 0, 0]

/-- The user password entry at time 1. -/
def c2U1 : List Nat :=
  [141, 172, 195, 226, 1, 32, 71, 102, 133, 164, 219, 250, 25, 56, 95, 126,
   0, 0, 0, 0, 0, 0, 0, 0, 0, 0, 0, 0, 0, 0, 0, 0]

/-- The bit pattern asserted by the high-resolution permission claim, read
with its stated bit numbering (bits 3 and 4 denote the values 4 and 8, so
bit 13 denotes the value 4096) on top of the base mask whose set positions
are the reserved bits. -/
def c3ClaimedMask : Nat := 0xfffff0c0 ||| 0x4 ||| 0x8 ||| 0x1000

/-! ## Helper lemmas -/

/-- The padded password always holds exactly 32 bytes. -/
theorem padPassword_length (password : List Nat) : (padPassword password).length = 32 := by
  simp [padPassword]
  omega

/-- An index-free fold over an index range is the iterate of its step. -/
theorem foldlRange_eq_iterate {α : Type} (f : α → α) (a : α) (n : Nat) :
    (List.range n).foldl (fun d _ => f d) a = f^[n] a := by
  induction n with
  | zero => rfl
  | succ n ih =>
      rw [List.range_succ, List.foldl_append, ih, Function.iterate_succ_apply']
      rfl

/-- Drawing n bytes yields exactly n bytes. -/
theorem Rng.draw_length (r : Rng) (n : Nat) : ((Rng.draw r n).1).length = n := by
  simp [Rng.draw]

/-- The version dispatch table only produces the algorithm versions
1, 2, 4 and 5. -/
theorem versionToAlgorithm_cases (s : String) :
    versionToAlgorithm s = 1 ∨ versionToAlgorithm s = 2 ∨
    versionToAlgorithm s = 4 ∨ versionToAlgorithm s = 5 := by
  unfold versionToAlgorithm
  split <;> simp

/-- Legacy password processing either succeeds with the padded password or
fails with the invalid-password-character error. -/
theorem processPasswordR2R3R4_shape (pw : List Nat) :
    processPasswordR2R3R4 pw = .ok (padPassword pw) ∨
    processPasswordR2R3R4 pw = .error .invalidPasswordCharacter := by
  unfold processPasswordR2R3R4
  split <;> simp

/-- isConfigError looks through Except.map. -/
theorem isConfigError_map {α β : Type} (f : α → β) (x : Except SecurityError α) :
    isConfigError (x.map f) = isConfigError x := by
  cases x with
  | error e => cases e <;> rfl
  | ok a => rfl

/-- The legacy initialization never produces the Configuration error (its
only failures are the defensive unsupported-algorithm branch and the
password character check). -/
theorem initializeV1V2V4_ne_config (C : CryptoPrimitives) (v : Nat) (id : List Nat)
    (opts : SecurityOptions) :
    isConfigError (PDFSecurity.initializeV1V2V4 C v id opts) = false := by
  unfold PDFSecurity.initializeV1V2V4
  split
  · rename_i e heq
    split at heq
    · simp at heq
    · simp at heq
    · simp at heq
    · cases heq
      rfl
  · split
    · rename_i e heq
      rcases processPasswordR2R3R4_shape (opts.userPassword.getD []) with h | h <;>
          rw [h] at heq
      · simp at heq
      · cases heq
        rfl
    · split
      · rename_i e heq
        by_cases ho : strTruthy opts.ownerPassword = true
        · rw [if_pos ho] at heq
          rcases processPasswordR2R3R4_shape (opts.ownerPassword.getD []) with h | h <;>
              rw [h] at heq
          · simp at heq
          · cases heq
            rfl
        · rw [if_neg ho] at heq
          simp at heq
      · rfl

/-! ## C3: the revision-3 permission mask for highResolution printing -/

/-- C3: counterexample.  For the input printing = highResolution and
modifying = true, the computed mask is 0xfffff8cc: high-resolution printing
contributes the bit of value 2048 (one-based position 12), not the claimed
bit 13 (value 4096), so the mask differs from the bit pattern the claim
describes. -/
theorem c3_counterexample :
    getPermissionsR3 { printing := .highResolution, modifying := true } ≠ c3ClaimedMask := by
  decide

/-- C3 (amended): for printing = highResolution and modifying = true the
revision-3 mask equals the base mask 0xfffff0c0 with the printing bits of
values 4 and 2048 (one-based positions 3 and 12) and the modifying bit of
value 8 (position 4) set, i.e. 0xfffff8cc; bitwise, position i (0-based) is
set exactly when it is one of the three permission bits or a bit already set
in the base mask. -/
theorem c3_permissions_highResolution_modifying :
    getPermissionsR3 { printing := .highResolution, modifying := true } = 0xfffff8cc ∧
    getPermissionsR3 { printing := .highResolution, modifying := true } =
      (0xfffff0c0 ||| 0x4 ||| 0x800 ||| 0x8) ∧
    (∀ i < 32,
      (getPermissionsR3 { printing := .highResolution, modifying := true }).testBit i =
        (decide (i = 2) || decide (i = 3) || decide (i = 11) || Nat.testBit 0xfffff0c0 i)) := by
  refine ⟨by decide, by decide, by decide⟩

/-- C3: witness.  The bit characterization applied at position 11 (0-based;
the one-based position 12 the code sets for high-resolution printing). -/
theorem c3_witness :
    (getPermissionsR3 { printing := .highResolution, modifying := true }).testBit 11 =
      (decide ((11 : Nat) = 2) || decide ((11 : Nat) = 3) || decide ((11 : Nat) = 11) ||
        Nat.testBit 0xfffff0c0 11) :=
  c3_permissions_highResolution_modifying.2.2 11 (by decide)

/-! ## C10: legacy password processing -/

/-- C10: processPasswordR2R3R4 fails with the invalid-password-character
error exactly when one of the first 32 character codes exceeds 255 (later
characters reach neither the range check nor the output), and on success the
result holds exactly 32 bytes. -/
theorem c10_processPassword_length_and_error (password : List Nat) :
    (processPasswordR2R3R4 password).map List.length =
      if ∃ c ∈ password.take 32, 0xff < c then .error .invalidPasswordCharacter
      else .ok 32 := by
  unfold processPasswordR2R3R4
  by_cases h : ∃ c ∈ password.take 32, 0xff < c
  · rw [if_pos h]
    have : (password.take 32).any (fun c => decide (0xff < c)) = true := by
      simp only [List.any_eq_true, decide_eq_true_eq]
      exact h
    rw [if_pos this]
    rfl
  · rw [if_neg h]
    have hany : ¬((password.take 32).any (fun c => decide (0xff < c)) = true) := by
      intro hb
      exact h (by simpa using hb)
    rw [if_neg hany]
    simp [Except.map, padPassword_length]

/-! ## C6: enumeration order -/

/-- C6: enumerateIndirectObjects returns a permutation of the stored
entries sorted ascending by object number, for every graph state and hence
for every insertion order. -/
theorem c6_enumerate_sorted_perm (c : PDFContextState) :
    (PDFContext.enumerateIndirectObjects c).Sorted byAscendingObjectNumber ∧
    (PDFContext.enumerateIndirectObjects c).Perm c.indirectObjects :=
  ⟨List.sorted_insertionSort byAscendingObjectNumber c.indirectObjects,
   List.perm_insertionSort byAscendingObjectNumber c.indirectObjects⟩

/-! ## C4: object number freshness -/

/-- One operation never decreases largestObjectNumber, and the object number
it assigns is bounded by the new largestObjectNumber. -/
theorem CtxOp.apply_le (c : PDFContextState) (op : CtxOp) :
    c.largestObjectNumber ≤ (op.apply c).1.largestObjectNumber ∧
    (op.apply c).2 ≤ (op.apply c).1.largestObjectNumber := by
  cases op with
  | assignOp ref object =>
      simp only [CtxOp.apply, PDFContext.assign]
      split <;> omega
  | registerOp object =>
      simp only [CtxOp.apply, PDFContext.register, PDFContext.nextRef,
        PDFContext.assign, PDFRef.of]
      split <;> omega

/-- The final largestObjectNumber of a run bounds every number assigned
during it and never decreased. -/
theorem runOps_bound (c : PDFContextState) (ops : List CtxOp) :
    c.largestObjectNumber ≤ (runOps c ops).1.largestObjectNumber ∧
    ∀ n ∈ (runOps c ops).2, n ≤ (runOps c ops).1.largestObjectNumber := by
  induction ops generalizing c with
  | nil => simp [runOps]
  | cons op rest ih =>
      have hstep := CtxOp.apply_le c op
      have hrest := ih (op.apply c).1
      simp only [runOps]
      refine ⟨le_trans hstep.1 hrest.1, fun n hn => ?_⟩
      rcases List.mem_cons.mp hn with h | h
      · subst h
        exact le_trans hstep.2 hrest.1
      · exact hrest.2 n h

/-- C4: register on the freshly created graph returns object number 1
(hence never 0); any single assign or register keeps largestObjectNumber
non-decreasing; and after any finite sequence of assign and register
operations from create, nextRef returns an object number strictly greater
than every object number assigned during the sequence. -/
theorem c4_register_one_and_nextRef_fresh :
    (∀ object, (PDFContext.register PDFContext.create object).1.objectNumber = 1) ∧
    (∀ c op, c.largestObjectNumber ≤ (CtxOp.apply c op).1.largestObjectNumber) ∧
    (∀ ops : List CtxOp, ∀ n ∈ (runOps PDFContext.create ops).2,
      n < (PDFContext.nextRef (runOps PDFContext.create ops).1).1.objectNumber) := by
  refine ⟨fun object => rfl, fun c op => (CtxOp.apply_le c op).1, fun ops n hn => ?_⟩
  have hb := (runOps_bound PDFContext.create ops).2 n hn
  simp only [PDFContext.nextRef, PDFRef.of]
  omega

/-- C4: witness.  Running two registers from the fresh graph assigns the
object number 2, and the next reference then exceeds it. -/
theorem c4_witness :
    2 ∈ (runOps PDFContext.create
      [CtxOp.registerOp PDFObject.null, CtxOp.registerOp PDFObject.null]).2 ∧
    2 < (PDFContext.nextRef (runOps PDFContext.create
      [CtxOp.registerOp PDFObject.null, CtxOp.registerOp PDFObject.null]).1).1.objectNumber :=
  ⟨by decide, c4_register_one_and_nextRef_fresh.2.2
    [CtxOp.registerOp PDFObject.null, CtxOp.registerOp PDFObject.null] 2 (by decide)⟩

/-! ## C7: memoized bracket content streams -/

/-- Inserting a key absent from the map appends, growing it by exactly one
entry. -/
theorem mapSet_length_fresh (m : List (PDFRef × PDFObject)) (k : PDFRef) (v : PDFObject)
    (h : ∀ e ∈ m, e.1 ≠ k) : (mapSet m k v).length = m.length + 1 := by
  induction m with
  | nil => rfl
  | cons e rest ih =>
      obtain ⟨k0, v0⟩ := e
      have hne : k0 ≠ k := h (k0, v0) (List.mem_cons_self _ _)
      simp only [mapSet, if_neg hne, List.length_cons]
      rw [ih (fun e he => h e (List.mem_cons_of_mem _ he))]

/-- C7: on a graph satisfying the reachable-state invariant (every stored
object number is at most largestObjectNumber) whose bracket streams have not
yet been requested, a second call of getPushGraphicsStateContentStream
returns the same reference and the same state as the first, the first call
adds exactly one indirect object, and the same holds for
getPopGraphicsStateContentStream. -/
theorem c7_bracket_streams_memoized (c : PDFContextState)
    (hinv : ∀ e ∈ c.indirectObjects, e.1.objectNumber ≤ c.largestObjectNumber)
    (hpush : c.pushGraphicsStateContentStreamRef = none)
    (hpop : c.popGraphicsStateContentStreamRef = none) :
    ((PDFContext.getPushGraphicsStateContentStream
        (PDFContext.getPushGraphicsStateContentStream c).2).1 =
      (PDFContext.getPushGraphicsStateContentStream c).1 ∧
     (PDFContext.getPushGraphicsStateContentStream
        (PDFContext.getPushGraphicsStateContentStream c).2).2 =
      (PDFContext.getPushGraphicsStateContentStream c).2 ∧
     (PDFContext.getPushGraphicsStateContentStream c).2.indirectObjects.length =
      c.indirectObjects.length + 1) ∧
    ((PDFContext.getPopGraphicsStateContentStream
        (PDFContext.getPopGraphicsStateContentStream c).2).1 =
      (PDFContext.getPopGraphicsStateContentStream c).1 ∧
     (PDFContext.getPopGraphicsStateContentStream
        (PDFContext.getPopGraphicsStateContentStream c).2).2 =
      (PDFContext.getPopGraphicsStateContentStream c).2 ∧
     (PDFContext.getPopGraphicsStateContentStream c).2.indirectObjects.length =
      c.indirectObjects.length + 1) := by
  have hfresh : ∀ e ∈ c.indirectObjects,
      e.1 ≠ PDFRef.of (c.largestObjectNumber + 1) := by
    intro e he heq
    have := hinv e he
    rw [heq] at this
    simp [PDFRef.of] at this
  constructor
  · have h1 : PDFContext.getPushGraphicsStateContentStream c =
        ((PDFContext.register c (PDFObject.stream [] ["q"])).1,
         { (PDFContext.register c (PDFObject.stream [] ["q"])).2 with
           pushGraphicsStateContentStreamRef :=
             some (PDFContext.register c (PDFObject.stream [] ["q"])).1 }) := by
      unfold PDFContext.getPushGraphicsStateContentStream
      rw [hpush]
    rw [h1]
    refine ⟨rfl, rfl, ?_⟩
    simp only [PDFContext.register, PDFContext.nextRef, PDFContext.assign]
    exact mapSet_length_fresh c.indirectObjects _ _ hfresh
  · have h1 : PDFContext.getPopGraphicsStateContentStream c =
        ((PDFContext.register c (PDFObject.stream [] ["Q"])).1,
         { (PDFContext.register c (PDFObject.stream [] ["Q"])).2 with
           popGraphicsStateContentStreamRef :=
             some (PDFContext.register c (PDFObject.stream [] ["Q"])).1 }) := by
      unfold PDFContext.getPopGraphicsStateContentStream
      rw [hpop]
    rw [h1]
    refine ⟨rfl, rfl, ?_⟩
    simp only [PDFContext.register, PDFContext.nextRef, PDFContext.assign]
    exact mapSet_length_fresh c.indirectObjects _ _ hfresh

/-- C7: witness at the freshly created graph. -/
theorem c7_witness :
    ((PDFContext.getPushGraphicsStateContentStream
        (PDFContext.getPushGraphicsStateContentStream PDFContext.create).2).1 =
      (PDFContext.getPushGraphicsStateContentStream PDFContext.create).1 ∧
     (PDFContext.getPushGraphicsStateContentStream
        (PDFContext.getPushGraphicsStateContentStream PDFContext.create).2).2 =
      (PDFContext.getPushGraphicsStateContentStream PDFContext.create).2 ∧
     (PDFContext.getPushGraphicsStateContentStream PDFContext.create).2.indirectObjects.length =
      PDFContext.create.indirectObjects.length + 1) ∧
    ((PDFContext.getPopGraphicsStateContentStream
        (PDFContext.getPopGraphicsStateContentStream PDFContext.create).2).1 =
      (PDFContext.getPopGraphicsStateContentStream PDFContext.create).1 ∧
     (PDFContext.getPopGraphicsStateContentStream
        (PDFContext.getPopGraphicsStateContentStream PDFContext.create).2).2 =
      (PDFContext.getPopGraphicsStateContentStream PDFContext.create).2 ∧
     (PDFContext.getPopGraphicsStateContentStream PDFContext.create).2.indirectObjects.length =
      PDFContext.create.indirectObjects.length + 1) :=
  c7_bracket_streams_memoized PDFContext.create
    (by intro e he; simp [PDFContext.create] at he) rfl rfl

/-! ## C8: the constructor guard -/

/-- initialize dispatches on the algorithm version: V5 directly, the legacy
path through Except.map. -/
theorem initialize_eq (C : CryptoPrimitives) (vs : String) (now : Nat)
    (opts : SecurityOptions) (rng : Rng) :
    PDFSecurity.initializeHandler C vs now opts rng =
      if versionToAlgorithm vs = 5 then
        .ok (PDFSecurity.initializeV5 C (generateFileID C now) opts rng)
      else
        (PDFSecurity.initializeV1V2V4 C (versionToAlgorithm vs)
          (generateFileID C now) opts).map (fun s => (s, rng)) := by
  rcases versionToAlgorithm_cases vs with h | h | h | h <;> rw [h] <;> simp [PDFSecurity.initializeHandler, h]

/-- C8: construction fails with the Configuration error exactly when neither
password is truthy (a present empty string is falsy, as in the source); the
initialization that otherwise runs performs the complete derivation and can
itself never produce the Configuration error; and the constructor is exactly
that guard followed by the full initialization, so no partially initialized
handler is ever returned. -/
theorem c8_constructor_guard (C : CryptoPrimitives) (versionString : String) (now : Nat)
    (opts : SecurityOptions) (rng : Rng) :
    (isConfigError (PDFSecurity.construct C versionString now opts rng) =
      (!strTruthy opts.ownerPassword && !strTruthy opts.userPassword)) ∧
    (isConfigError (PDFSecurity.initializeHandler C versionString now opts rng) = false) ∧
    (PDFSecurity.construct C versionString now opts rng =
      if (!strTruthy opts.ownerPassword && !strTruthy opts.userPassword) = true
      then .error .configurationError
      else PDFSecurity.initializeHandler C versionString now opts rng) := by
  have hinit : isConfigError (PDFSecurity.initializeHandler C versionString now opts rng) = false := by
    rw [initialize_eq]
    by_cases h5 : versionToAlgorithm versionString = 5
    · rw [if_pos h5]
      rfl
    · rw [if_neg h5, isConfigError_map]
      exact initializeV1V2V4_ne_config C (versionToAlgorithm versionString)
        (generateFileID C now) opts
  refine ⟨?_, hinit, rfl⟩
  unfold PDFSecurity.construct
  cases hgb : (!strTruthy opts.ownerPassword && !strTruthy opts.userPassword) with
  | true => simp [hgb, isConfigError]
  | false => simp [hgb, hinit]

/-! ## C9: the 1.7ext3 encryption dictionary -/

/-- C9: for any SecurityOptions passing the constructor guard and any
primitives with the genuine output lengths (SHA-256 yields 32 bytes, the
no-padding AES modes preserve length), construction at format version
1.7ext3 succeeds with V = 5 and R = 5, a 16-byte Perms entry, 32-byte OE and
UE entries, and 48-byte O and U entries. -/
theorem c9_v5_dictionary_sizes (C : CryptoPrimitives) (now : Nat) (opts : SecurityOptions)
    (rng : Rng)
    (hsha : ∀ m, (C.sha256 m).length = 32)
    (hcbc : ∀ k iv m, (C.aesCbcNoPad k iv m).length = m.length)
    (hecb : ∀ k m, (C.aesEcbNoPad k m).length = m.length)
    (hpw : (!strTruthy opts.ownerPassword && !strTruthy opts.userPassword) = false) :
    ∃ s rng2, PDFSecurity.construct C "1.7ext3" now opts rng = .ok (s, rng2) ∧
      s.encryption.V = 5 ∧ s.encryption.R = 5 ∧
      s.encryption.Perms.map List.length = some 16 ∧
      s.encryption.OE.map List.length = some 32 ∧
      s.encryption.UE.map List.length = some 32 ∧
      s.encryption.O.length = 48 ∧
      s.encryption.U.length = 48 := by
  have hc : PDFSecurity.construct C "1.7ext3" now opts rng =
      .ok (PDFSecurity.initializeV5 C (generateFileID C now) opts rng) := by
    unfold PDFSecurity.construct
    rw [hpw]
    simp [initialize_eq, versionToAlgorithm]
  refine ⟨(PDFSecurity.initializeV5 C (generateFileID C now) opts rng).1,
    (PDFSecurity.initializeV5 C (generateFileID C now) opts rng).2, by rw [hc], ?_, ?_, ?_, ?_, ?_, ?_, ?_⟩ <;>
    simp only [PDFSecurity.initializeV5, getEncryptionKeyR5, getUserPasswordR5,
      getUserEncryptionKeyR5, getOwnerPasswordR5, getOwnerEncryptionKeyR5,
      getEncryptedPermissionsR5, Rng.draw] <;>
    simp [hsha, hcbc, hecb, beBytes4]

/-- C9: witness at a concrete primitive bundle, option set and random
stream. -/
theorem c9_witness :
    ∃ s rng2, PDFSecurity.construct cryptoReal "1.7ext3" 0
        { userPassword := some [120] } natRng = .ok (s, rng2) ∧
      s.encryption.V = 5 ∧ s.encryption.R = 5 ∧
      s.encryption.Perms.map List.length = some 16 ∧
      s.encryption.OE.map List.length = some 32 ∧
      s.encryption.UE.map List.length = some 32 ∧
      s.encryption.O.length = 48 ∧
      s.encryption.U.length = 48 :=
  c9_v5_dictionary_sizes cryptoReal 0 { userPassword := some [120] } natRng
    (fun m => by simp [cryptoReal, sha256Model])
    (fun k iv m => by simp [cryptoReal, aesCbcModel])
    (fun k m => by simp [cryptoReal, aesEcbModel])
    rfl

/-! ## C1: the per-object encryption closure -/

/-- C1 (amended): on the AES paths (V = 4 or V = 5) getEncryptFn draws the
16-byte IV once, at the time it is called, and returns a deterministic
closure: every invocation prefixes that same IV and encrypts under the same
key, so two invocations on the same buffer yield the same ciphertext; for
V = 5 the key is the document encryption key itself, constant for the whole
document. -/
theorem c1_encryptFn_iv_drawn_once (C : CryptoPrimitives) (s : PDFSecurityState)
    (obj gen : Nat) (rng : Rng) (buffer : List Nat)
    (hv : s.encryption.V = 4 ∨ s.encryption.V = 5) :
    ∃ fn, PDFSecurity.getEncryptFn C s obj gen rng = .ok (fn, (rng.draw 16).2) ∧
      (∀ b, fn b = (rng.draw 16).1 ++
        C.aesCbcPkcs7 (PDFSecurity.encryptFnAesKey C s obj gen) (rng.draw 16).1 b) ∧
      fn buffer = fn buffer ∧
      (s.encryption.V = 5 →
        PDFSecurity.encryptFnAesKey C s obj gen = s.encryptionKey) := by
  rcases hv with h | h
  · have he : PDFSecurity.getEncryptFn C s obj gen rng =
        .ok ((fun b => (rng.draw 16).1 ++
          C.aesCbcPkcs7 (PDFSecurity.encryptFnAesKey C s obj gen) (rng.draw 16).1 b),
          (rng.draw 16).2) := by
      simp only [PDFSecurity.getEncryptFn, PDFSecurity.encryptFnAesKey, h]
      norm_num
    exact ⟨_, he, fun b => rfl, rfl, fun h5 => absurd (h.symm.trans h5) (by decide)⟩
  · have he : PDFSecurity.getEncryptFn C s obj gen rng =
        .ok ((fun b => (rng.draw 16).1 ++
          C.aesCbcPkcs7 (PDFSecurity.encryptFnAesKey C s obj gen) (rng.draw 16).1 b),
          (rng.draw 16).2) := by
      simp only [PDFSecurity.getEncryptFn, PDFSecurity.encryptFnAesKey, h]
      norm_num
    refine ⟨_, he, fun b => rfl, rfl, fun _ => ?_⟩
    simp only [PDFSecurity.encryptFnAesKey, h]
    norm_num

/-- C1: witness at a concrete V = 5 handler state. -/
theorem c1_witness :
    ∃ fn, PDFSecurity.getEncryptFn cryptoReal c1StateV5 1 0 natRng =
        .ok (fn, (natRng.draw 16).2) ∧
      (∀ b, fn b = (natRng.draw 16).1 ++
        cryptoReal.aesCbcPkcs7 (PDFSecurity.encryptFnAesKey cryptoReal c1StateV5 1 0)
          (natRng.draw 16).1 b) ∧
      fn [1, 2, 3] = fn [1, 2, 3] ∧
      (c1StateV5.encryption.V = 5 →
        PDFSecurity.encryptFnAesKey cryptoReal c1StateV5 1 0 = c1StateV5.encryptionKey) :=
  c1_encryptFn_iv_drawn_once cryptoReal c1StateV5 1 0 natRng [1, 2, 3] (Or.inr rfl)

/-- C1: counterexample.  A handler genuinely constructed at format version
1.7ext3 (the V = 5 AES path, with the genuine MD5 in the bundle) yields a
closure whose two invocations on the same buffer produce the same
ciphertext, refuting the claim that they must differ. -/
theorem c1_counterexample :
    ((PDFSecurity.construct cryptoReal "1.7ext3" 0
        { userPassword := some [102, 111, 111] } natRng).map
      (fun p => p.1.encryption.V) = .ok 5) ∧
    ((PDFSecurity.construct cryptoReal "1.7ext3" 0
        { userPassword := some [102, 111, 111] } natRng).bind
       (fun p => PDFSecurity.getEncryptFn cryptoReal p.1 1 0 p.2)).map
      (fun fr => decide (fr.1 [1, 2, 3] = fr.1 [1, 2, 3])) = .ok true := by
  constructor
  · decide
  · decide

/-! ## C2: reproducibility of the legacy (R2-R4) construction -/

/-- At format version 1.7 with a truthy user password, the constructor runs
the legacy V4 initialization on the file identifier derived from the
construction time. -/
theorem construct_V17 (C : CryptoPrimitives) (now : Nat) (opts : SecurityOptions)
    (rng : Rng) (h : strTruthy opts.userPassword = true) :
    PDFSecurity.construct C "1.7" now opts rng =
      (PDFSecurity.initializeV1V2V4 C 4 (generateFileID C now) opts).map
        (fun s => (s, rng)) := by
  unfold PDFSecurity.construct
  rw [h]
  simp [initialize_eq, versionToAlgorithm]

/-- The legacy V4 initialization with a valid user password and no owner
password, written out: every derived entry as a function of the padded user
password, the permissions and the file identifier. -/
theorem initializeV1V2V4_V4_ok (C : CryptoPrimitives) (id : List Nat)
    (opts : SecurityOptions) (pu : List Nat)
    (hpu : processPasswordR2R3R4 (opts.userPassword.getD []) = .ok pu)
    (ho : strTruthy opts.ownerPassword = false) :
    PDFSecurity.initializeV1V2V4 C 4 id opts = .ok {
      id := id
      keyBits := 128
      encryptionKey := getEncryptionKeyR2R3R4 C 4 128 id pu
        (getOwnerPasswordR2R3R4 C 4 128 pu pu) (getPermissionsR3 opts.permissions)
      encryption := {
        V := 4
        R := 4
        O := getOwnerPasswordR2R3R4 C 4 128 pu pu
        U := getUserPasswordR3R4 C id (getEncryptionKeyR2R3R4 C 4 128 id pu
          (getOwnerPasswordR2R3R4 C 4 128 pu pu) (getPermissionsR3 opts.permissions))
        P := asInt32 (getPermissionsR3 opts.permissions)
        Filter := "Standard"
        Length := some 128
        CF := some ⟨"DocOpen", "AESV2", 16⟩
        StmF := some "StdCF"
        StrF := some "StdCF"
        OE := none
        UE := none
        Perms := none } } := by
  unfold PDFSecurity.initializeV1V2V4
  rw [hpu, ho]
  simp

/-- The O entry computed by the legacy initialization does not depend on the
file identifier (and hence not on the construction time). -/
theorem initializeV1V2V4_O_const (C : CryptoPrimitives) (id1 id2 : List Nat)
    (opts : SecurityOptions) :
    (PDFSecurity.initializeV1V2V4 C 4 id1 opts).map (fun s => s.encryption.O) =
    (PDFSecurity.initializeV1V2V4 C 4 id2 opts).map (fun s => s.encryption.O) := by
  unfold PDFSecurity.initializeV1V2V4
  cases hpu : processPasswordR2R3R4 (opts.userPassword.getD []) with
  | error e => rfl
  | ok pu =>
      cases ho : strTruthy opts.ownerPassword with
      | true =>
          cases hpo : processPasswordR2R3R4 (opts.ownerPassword.getD []) with
          | error e => simp [Except.map]
          | ok po => simp [Except.map]
      | false => simp [Except.map]

/-- C2 (amended): the legacy (version 1.7, R4) construction consumes no
randomness (the random source is returned untouched), and its O entry is a
function of the SecurityOptions alone, identical across construction times
and random sources; the U entry and the encryption key additionally depend
on the file identifier, which is the MD5 of the construction time, so they
are reproducible only at equal construction times. -/
theorem c2_legacy_reproducible_modulo_time (C : CryptoPrimitives) (now now2 : Nat)
    (opts : SecurityOptions) (rngA rngB : Rng) :
    ((PDFSecurity.construct C "1.7" now opts rngA).map Prod.snd =
      (PDFSecurity.construct C "1.7" now opts rngA).map (fun _ => rngA)) ∧
    ((PDFSecurity.construct C "1.7" now opts rngA).map (fun p => p.1.encryption.O) =
      (PDFSecurity.construct C "1.7" now2 opts rngB).map (fun p => p.1.encryption.O)) := by
  unfold PDFSecurity.construct
  cases hgb : (!strTruthy opts.ownerPassword && !strTruthy opts.userPassword) with
  | true => simp [hgb, Except.map]
  | false =>
      simp only [hgb, Bool.false_eq_true, if_false, initialize_eq]
      rw [show versionToAlgorithm "1.7" = 4 from rfl]
      constructor
      · simp only [if_neg (by decide : ¬(4 = 5))]
        cases PDFSecurity.initializeV1V2V4 C 4 (generateFileID C now) opts <;>
          simp [Except.map]
      · simp only [if_neg (by decide : ¬(4 = 5))]
        have h1 := initializeV1V2V4_O_const C (generateFileID C now)
          (generateFileID C now2) opts
        cases hx : PDFSecurity.initializeV1V2V4 C 4 (generateFileID C now) opts with
        | error e =>
            rw [hx] at h1
            cases hy : PDFSecurity.initializeV1V2V4 C 4 (generateFileID C now2) opts with
            | error e2 => rw [hy] at h1; simp [Except.map] at h1 ⊢; simp [h1]
            | ok s2 => rw [hy] at h1; simp [Except.map] at h1
        | ok s =>
            rw [hx] at h1
            cases hy : PDFSecurity.initializeV1V2V4 C 4 (generateFileID C now2) opts with
            | error e2 => rw [hy] at h1; simp [Except.map] at h1
            | ok s2 => rw [hy] at h1; simp [Except.map] at h1 ⊢; simp [h1]

/-- The index-free digest fold is the iterate of the model MD5. -/
theorem c2_digest_fold_eq (a : List Nat) (n : Nat) :
    (List.range n).foldl (fun d _ => cryptoModel.md5 d) a = (cryptoModel.md5)^[n] a :=
  foldlRange_eq_iterate cryptoModel.md5 a n

/-- The index-free encryption-key fold is the iterate of its round. -/
theorem c2_key_fold_eq (a : List Nat) (n : Nat) :
    (List.range n).foldl (fun key _ => (cryptoModel.md5 key).take (128 / 8)) a =
      (fun key => (cryptoModel.md5 key).take (128 / 8))^[n] a :=
  foldlRange_eq_iterate (fun key => (cryptoModel.md5 key).take (128 / 8)) a n

/-- C2: counterexample.  Constructing twice from the identical SecurityOptions
(user password "foo") at format version 1.7, at consecutive construction
times 0 and 1 (the source reads Date.now() inside generateFileID), yields
different U entries: the file identifier embeds the construction time, and U
is derived from it.  The external MD5 is instantiated with the deterministic
model bundle. -/
theorem c2_counterexample :
    (PDFSecurity.construct cryptoModel "1.7" 0 c2opts natRng).map
      (fun p => p.1.encryption.U) ≠
    (PDFSecurity.construct cryptoModel "1.7" 1 c2opts natRng).map
      (fun p => p.1.encryption.U) := by
  have hpu : processPasswordR2R3R4 (c2opts.userPassword.getD []) = .ok c2pw := by decide
  have hfid0 : generateFileID cryptoModel 0 = c2id0 := by decide
  have hfid1 : generateFileID cryptoModel 1 = c2id1 := by decide
  have hperm : getPermissionsR3 c2opts.permissions = 4294963392 := by decide
  have hdA : (cryptoModel.md5)^[17] c2pw = c2dA := by decide
  have hdB : (cryptoModel.md5)^[17] c2dA = c2dB := by decide
  have hdC : (cryptoModel.md5)^[17] c2dB = c2dC := by decide
  have hO : getOwnerPasswordR2R3R4 cryptoModel 4 128 c2pw c2pw = c2oEnt := by
    unfold getOwnerPasswordR2R3R4
    rw [show (if 3 ≤ 4 then (51 : Nat) else 1) = 51 from rfl,
        show (if 3 ≤ 4 then (20 : Nat) else 1) = 20 from rfl,
        c2_digest_fold_eq,
        show (51 : Nat) = 17 + (17 + 17) from rfl,
        Function.iterate_add_apply, Function.iterate_add_apply, hdA, hdB, hdC]
    decide
  have hk0A : (fun key => (cryptoModel.md5 key).take (128 / 8))^[17]
      (c2pw ++ c2oEnt ++ beBytes4 (lsbFirstWord 4294963392) ++ c2id0) = c2k0A := by decide
  have hk0B : (fun key => (cryptoModel.md5 key).take (128 / 8))^[17] c2k0A = c2k0B := by
    decide
  have hk0C : (fun key => (cryptoModel.md5 key).take (128 / 8))^[17] c2k0B = c2key0 := by
    decide
  have hk1A : (fun key => (cryptoModel.md5 key).take (128 / 8))^[17]
      (c2pw ++ c2oEnt ++ beBytes4 (lsbFirstWord 4294963392) ++ c2id1) = c2k1A := by decide
  have hk1B : (fun key => (cryptoModel.md5 key).take (128 / 8))^[17] c2k1A = c2k1B := by
    decide
  have hk1C : (fun key => (cryptoModel.md5 key).take (128 / 8))^[17] c2k1B = c2key1 := by
    decide
  have hkey0 : getEncryptionKeyR2R3R4 cryptoModel 4 128 c2id0 c2pw c2oEnt 4294963392 =
      c2key0 := by
    unfold getEncryptionKeyR2R3R4
    rw [show (if 3 ≤ 4 then (51 : Nat) else 1) = 51 from rfl, c2_key_fold_eq,
        show (51 : Nat) = 17 + (17 + 17) from rfl,
        Function.iterate_add_apply, Function.iterate_add_apply, hk0A, hk0B, hk0C]
  have hkey1 : getEncryptionKeyR2R3R4 cryptoModel 4 128 c2id1 c2pw c2oEnt 4294963392 =
      c2key1 := by
    unfold getEncryptionKeyR2R3R4
    rw [show (if 3 ≤ 4 then (51 : Nat) else 1) = 51 from rfl, c2_key_fold_eq,
        show (51 : Nat) = 17 + (17 + 17) from rfl,
        Function.iterate_add_apply, Function.iterate_add_apply, hk1A, hk1B, hk1C]
  have hU0 : getUserPasswordR3R4 cryptoModel c2id0 c2key0 = c2U0 := by decide
  have hU1 : getUserPasswordR3R4 cryptoModel c2id1 c2key1 = c2U1 := by decide
  rw [construct_V17 cryptoModel 0 c2opts natRng rfl,
      construct_V17 cryptoModel 1 c2opts natRng rfl,
      initializeV1V2V4_V4_ok cryptoModel (generateFileID cryptoModel 0) c2opts c2pw hpu rfl,
      initializeV1V2V4_V4_ok cryptoModel (generateFileID cryptoModel 1) c2opts c2pw hpu rfl,
      hfid0, hfid1, hperm, hO, hkey0, hkey1, hU0, hU1]
  decide

/-! ## C5: the obj / getLiteral round trip -/

/-- Induction over literals giving membership hypotheses for the nested
lists. -/
theorem Lit.inductionMem {motive : Lit → Prop}
    (hnull : motive .lnull)
    (hstr : ∀ s, motive (.lstr s))
    (hnum : ∀ n, motive (.lnum n))
    (hbool : ∀ b, motive (.lbool b))
    (hbytes : ∀ bs, motive (.lbytes bs))
    (harr : ∀ xs, (∀ x ∈ xs, motive x) → motive (.larr xs))
    (hmap : ∀ kvs, (∀ kv ∈ kvs, motive kv.2) → motive (.lmap kvs)) :
    ∀ l, motive l
  | .lnull => hnull
  | .lstr s => hstr s
  | .lnum n => hnum n
  | .lbool b => hbool b
  | .lbytes bs => hbytes bs
  | .larr xs => harr xs (fun x hx =>
      Lit.inductionMem hnull hstr hnum hbool hbytes harr hmap x)
  | .lmap kvs => hmap kvs (fun kv hkv =>
      Lit.inductionMem hnull hstr hnum hbool hbytes harr hmap kv.2)
termination_by l => sizeOf l
decreasing_by
  · have := List.sizeOf_lt_of_mem hx
    simp only [Lit.larr.sizeOf_spec]
    omega
  · have h1 := List.sizeOf_lt_of_mem hkv
    have h2 : sizeOf kv.2 < sizeOf kv := by
      obtain ⟨a, b⟩ := kv
      simp only [Prod.mk.sizeOf_spec]
      omega
    simp only [Lit.lmap.sizeOf_spec]
    omega

/-- Elementwise round trip for the elements of an array literal. -/
theorem getLiteralList_objList (xs : List Lit)
    (ih : ∀ x ∈ xs, Lit.wf x = true →
      PDFContext.getLiteral cfg0 (PDFContext.obj x) = Lit.toGLit x)
    (h : Lit.wfList xs = true) :
    PDFContext.getLiteralList cfg0 (PDFContext.objList xs) = Lit.toGLitList xs := by
  induction xs with
  | nil => rfl
  | cons x rest ihr =>
      simp only [PDFContext.objList, PDFContext.getLiteralList, Lit.toGLitList]
      simp only [Lit.wfList, Bool.and_eq_true] at h
      rw [ih x (List.mem_cons_self _ _) h.1,
          ihr (fun y hy hw => ih y (List.mem_cons_of_mem _ hy) hw) h.2]

/-- Entrywise round trip for the entries of a map literal. -/
theorem getLiteralEntries_objEntries (kvs : List (String × Lit))
    (ih : ∀ kv ∈ kvs, Lit.wf kv.2 = true →
      PDFContext.getLiteral cfg0 (PDFContext.obj kv.2) = Lit.toGLit kv.2)
    (h : Lit.wfEntries kvs = true) :
    PDFContext.getLiteralEntries cfg0 (PDFContext.objEntries kvs) = Lit.toGLitEntries kvs := by
  induction kvs with
  | nil => rfl
  | cons kv rest ihr =>
      obtain ⟨k, v⟩ := kv
      simp only [PDFContext.objEntries, PDFContext.getLiteralEntries, Lit.toGLitEntries]
      simp only [Lit.wfEntries, Bool.and_eq_true] at h
      rw [ih (k, v) (List.mem_cons_self _ _) h.1,
          ihr (fun y hy hw => ih y (List.mem_cons_of_mem _ hy) hw) h.2]

/-- C5 (amended): applying getLiteral with the default configuration (deep,
no literal-breaking flag) to the result of obj returns the original literal
exactly, for every well-formed literal: nested null, strings, numbers,
booleans, lists and keyed maps — but not byte arrays, which obj turns into
PDFHexString objects that getLiteral passes through unchanged. -/
theorem c5_roundTrip : ∀ l : Lit, Lit.wf l = true →
    PDFContext.getLiteral cfg0 (PDFContext.obj l) = Lit.toGLit l := by
  intro l
  induction l using Lit.inductionMem with
  | hnull => intro _; rfl
  | hstr s => intro _; rfl
  | hnum n => intro _; rfl
  | hbool b => intro _; rfl
  | hbytes bs => intro h; simp [Lit.wf] at h
  | harr xs ih =>
      intro h
      have hl : Lit.wfList xs = true := by simpa [Lit.wf] using h
      rw [show PDFContext.obj (.larr xs) = .array (PDFContext.objList xs) from rfl,
          show PDFContext.getLiteral cfg0 (PDFObject.array (PDFContext.objList xs)) =
            GLit.arr (PDFContext.getLiteralList cfg0 (PDFContext.objList xs)) from rfl,
          show Lit.toGLit (.larr xs) = GLit.arr (Lit.toGLitList xs) from rfl]
      exact congrArg GLit.arr (getLiteralList_objList xs ih hl)
  | hmap kvs ih =>
      intro h
      have hl : Lit.wfEntries kvs = true := by
        simp only [Lit.wf, Bool.and_eq_true] at h
        exact h.2
      rw [show PDFContext.obj (.lmap kvs) = .dict (PDFContext.objEntries kvs) from rfl,
          show PDFContext.getLiteral cfg0 (PDFObject.dict (PDFContext.objEntries kvs)) =
            GLit.map (PDFContext.getLiteralEntries cfg0 (PDFContext.objEntries kvs)) from rfl,
          show Lit.toGLit (.lmap kvs) = GLit.map (Lit.toGLitEntries kvs) from rfl]
      exact congrArg GLit.map (getLiteralEntries_objEntries kvs ih hl)

/-- C5: counterexample.  A byte-array literal does not round-trip: obj turns
it into a PDFHexString object, and getLiteral with no literal-breaking flags
returns that typed object rather than the original byte array. -/
theorem c5_counterexample :
    PDFContext.getLiteral cfg0 (PDFContext.obj (.lbytes [171])) ≠
      Lit.toGLit (.lbytes [171]) := by
  intro h
  rw [show PDFContext.getLiteral cfg0 (PDFContext.obj (.lbytes [171])) =
        GLit.obj (.hexString [171]) from rfl,
      show Lit.toGLit (.lbytes [171]) = GLit.bytes [171] from rfl] at h
  exact GLit.noConfusion h

/-- C5: witness at a nested literal holding a map, a number, a list, null, a
boolean and a string. -/
theorem c5_witness :
    Lit.wf (Lit.lmap [("a", .lnum 1), ("b", .larr [.lnull, .lbool true, .lstr "x"])]) =
      true ∧
    PDFContext.getLiteral cfg0 (PDFContext.obj
        (Lit.lmap [("a", .lnum 1), ("b", .larr [.lnull, .lbool true, .lstr "x"])])) =
      Lit.toGLit (Lit.lmap [("a", .lnum 1), ("b", .larr [.lnull, .lbool true, .lstr "x"])]) :=
  ⟨by decide, c5_roundTrip _ (by decide)⟩

/-! ## Validation of the genuine primitive implementations -/

/-- md5Impl is the RFC 1321 algorithm: the digest of "abc". -/
theorem md5Impl_rfc1321_abc :
    md5Impl [0x61, 0x62, 0x63] =
      [0x90, 0x01, 0x50, 0x98, 0x3c, 0xd2, 0x4f, 0xb0,
       0xd6, 0x96, 0x3f, 0x7d, 0x28, 0xe1, 0x7f, 0x72] := by
  decide

/-- md5Impl on the empty message. -/
theorem md5Impl_rfc1321_empty :
    md5Impl [] =
      [0xd4, 0x1d, 0x8c, 0xd9, 0x8f, 0x00, 0xb2, 0x04,
       0xe9, 0x80, 0x09, 0x98, 0xec, 0xf8, 0x42, 0x7e] := by
  decide

/-- rc4Impl matches the standard test vector: key "Key", plaintext
"Plaintext". -/
theorem rc4Impl_testVector :
    rc4Impl [0x4b, 0x65, 0x79] [0x50, 0x6c, 0x61, 0x69, 0x6e, 0x74, 0x65, 0x78, 0x74] =
      [0xbb, 0xf3, 0x16, 0xe8, 0xd9, 0x40, 0xaf, 0x0a, 0xd3] := by
  decide

end PdfLib
